import Mathlib

/-!
Verification model of `pycomm.py`, an urwid-based terminal directory browser.

The Python program is embedded shallowly:

* `refresh` models `FileLister.refresh_directory_listing`;
* `change_directory`, `go_up_directory`, `open_selected_item`, `handle_input`
  model the `FileLister` methods of the same names;
* `close_menu`, `show_submenu`, `show_confirmation_dialog`,
  `show_exit_confirmation`, `show_error_dialog`, `on_submenu_click` model the
  `MenuBar` methods of the same names;
* the filesystem is an explicit input: every operation that lists a directory
  receives a `Listing` describing what `os.listdir` plus the per-item
  `os.path.isdir` / `os.path.isfile` classification would report;
* `step` routes one user event (keystroke or widget click) the way the urwid
  main loop does: keys consumed by the active overlay widget itself
  (arrows / enter, which move its focus or click its buttons) do not reach
  `unhandled_input`; overlay button clicks are separate events.

Machine integers do not occur; Python's unbounded `int` is `Int`.
-/

/-! ### Case-insensitive ordering of names

`refresh_directory_listing` sorts with `list.sort(key=str.lower)`: a stable
sort comparing the lowercased names by code points.  Python string comparison
is lexicographic on code points, so we compare lists of code points.  Lowering
is modelled on ASCII letters (the region where Python's `str.lower` and this
model agree). -/

/-- Code points of `s` with ASCII upper-case letters lowered: the sort key
`str.lower` produces, as compared by Python's string order. -/
def lowerKey (s : String) : List Nat :=
  s.data.map fun c => if 65 ≤ c.toNat ∧ c.toNat ≤ 90 then c.toNat + 32 else c.toNat

/-- Strict lexicographic order on code-point lists (Python's `<` on strings). -/
def natListLt : List Nat → List Nat → Bool
  | [], [] => false
  | [], _ :: _ => true
  | _ :: _, [] => false
  | a :: as, b :: bs => if a < b then true else if b < a then false else natListLt as bs

/-- Lexicographic order on code-point lists (Python's `<=` on strings). -/
def natListLe : List Nat → List Nat → Bool
  | [], _ => true
  | _ :: _, [] => false
  | a :: as, b :: bs => if a < b then true else if b < a then false else natListLe as bs

/-- Python's `lower(a) < lower(b)` on names. -/
def ciLt (a b : String) : Bool := natListLt (lowerKey a) (lowerKey b)

/-- Python's `lower(a) <= lower(b)` on names. -/
def ciLe (a b : String) : Bool := natListLe (lowerKey a) (lowerKey b)

/-! ### The stable sort

`list.sort(key=str.lower)` is a stable sort.  Stable sorts under a total
preorder agree extensionally, so it is modelled by a stable insertion sort:
`insertCI` places a new element (which precedes the already-sorted tail in the
original listing order) before every element that is not strictly below it, so
ties keep the original order. -/

/-- Insert `a` before the first element not strictly below it. -/
def insertCI (a : String) : List String → List String
  | [] => [a]
  | b :: bs => if ciLt b a then b :: insertCI a bs else a :: b :: bs

/-- Stable case-insensitive sort: models `list.sort(key=str.lower)`. -/
def sortCI : List String → List String
  | [] => []
  | a :: as => insertCI a (sortCI as)

/-! ### Paths

`pycomm.py` manipulates absolute POSIX paths: the initial directory is
`os.getcwd()` and every later directory is `os.path.abspath` of a join or a
`dirname` of the previous one, so all reachable `current_dir` values are
absolute.  The model therefore implements the POSIX path functions for
absolute inputs; the process working directory (only relevant to
`os.path.abspath` on relative input) is not modelled. -/

/-- Split a character list at `/` separators. -/
def splitSlash : List Char → List Char → List String
  | [], acc => [String.mk acc.reverse]
  | c :: cs, acc =>
    if c = '/' then String.mk acc.reverse :: splitSlash cs []
    else splitSlash cs (c :: acc)

/-- The nonempty components of a path. -/
def pathParts (p : String) : List String :=
  (splitSlash p.data []).filter fun x => x ≠ ""

/-- Resolve `.` and `..` components the way `posixpath.normpath` does for an
absolute path (`..` at the root stays at the root). -/
def normParts : List String → List String → List String
  | acc, [] => acc.reverse
  | acc, c :: rest =>
    if c = "." then normParts acc rest
    else if c = ".." then
      match acc with
      | [] => normParts [] rest
      | _ :: t => normParts t rest
    else normParts (c :: acc) rest

/-- Join components with `/`. -/
def joinSlash : List String → String
  | [] => ""
  | [x] => x
  | x :: xs => x ++ "/" ++ joinSlash xs

/-- `posixpath.normpath` for absolute paths. -/
def normpath (p : String) : String :=
  "/" ++ joinSlash (normParts [] (pathParts p))

/-- `os.path.abspath` for absolute paths (every call site in the program
passes an absolute path, so the process working directory never matters). -/
def abspath (p : String) : String := normpath p

/-- `os.path.dirname` for absolute paths. -/
def dirname (p : String) : String :=
  "/" ++ joinSlash (pathParts p).dropLast

/-- `os.path.join` for the shapes used by the program: an absolute directory
joined with a plain child name. -/
def joinPath (d n : String) : String :=
  if d.data.getLast? = some '/' then d ++ n else d ++ "/" ++ n

/-! ### Data model -/

/-- How `os.path.isdir` / `os.path.isfile` classify one `os.listdir` child.
`other` covers everything that is neither a directory nor a regular file
(broken symlink, socket, fifo, or a child whose stat call fails). -/
inductive Kind
  | dir
  | file
  | other
deriving DecidableEq, Repr

/-- One `os.listdir` child together with its classification. -/
structure Item where
  name : String
  kind : Kind
deriving DecidableEq, Repr

/-- What listing the current directory reports: the children with their
classifications, or the exception `os.listdir` raised. -/
inductive Listing
  | ok : List Item → Listing
  | err : String → Listing
deriving DecidableEq, Repr

/-- The names `os.path.isdir` classified as directories, in listing order
(the loop filling `self.directories`). -/
def dirNames (items : List Item) : List String :=
  (items.filter fun it => decide (it.kind = Kind.dir)).map Item.name

/-- The names `os.path.isfile` classified as regular files, in listing order
(the loop filling `self.files`). -/
def fileNames (items : List Item) : List String :=
  (items.filter fun it => decide (it.kind = Kind.file)).map Item.name

/-- One row of `self.item_info`: display name (directories carry a trailing
slash, the parent row is named `..`) and the `is_dir` flag.  The date and
size columns play no role in any claim and are omitted. -/
structure Entry where
  name : String
  isDir : Bool
deriving DecidableEq, Repr

/-- Which callbacks a confirmation dialog was built with:
`exitConfirm` is `show_exit_confirmation` (Yes raises `ExitMainLoop`,
No closes), `errorInfo` is `show_error_dialog` (both buttons are wired to
`close_menu`). -/
inductive DlgKind
  | exitConfirm
  | errorInfo
deriving DecidableEq, Repr

/-- The kind of overlay stored in `MenuBar.active_menu`. -/
inductive OvKind
  | submenu (title : String) (items : List (String × Option String))
  | dialog (kind : DlgKind) (title message : String)
deriving DecidableEq, Repr

/-- The widget tree held in `main_loop.widget`: the placeholder `SolidFill`,
a rebuilt main body (a snapshot of the directory view it was built from), or
an `urwid.Overlay` whose `bottom_w` is the widget it was stacked over. -/
inductive Widget
  | solid
  | bodyW (dir : String) (info : List Entry) (err : Option String)
  | overlayW (ov : OvKind) (bottom : Widget)
deriving DecidableEq, Repr

/-- The whole mutable state of the running program: the `FileLister` fields,
the `MenuBar.active_menu` slot (with the `bottom_w` it saved), and
`main_loop.widget`.  `directories` and `files` are `Option`s because the
`except` branch of `refresh_directory_listing` does not assign them: if the
very first listing fails they are still unset (`none`), and reading them
raises `AttributeError`. -/
structure St where
  home : String
  current_dir : String
  directories : Option (List String)
  files : Option (List String)
  all_items : List String
  item_info : List Entry
  item_widget_count : Nat
  listing_error : Option String
  selected_index : Int
  active_menu : Option (OvKind × Widget)
  loop_widget : Widget
deriving DecidableEq, Repr

/-- Outcome of handling one event: a new state, a clean exit with code 0
(`urwid.ExitMainLoop` caught by the main loop), or an uncaught Python
exception terminating the process with a traceback. -/
inductive StepResult
  | next (s : St)
  | exitZero
  | pyError (msg : String)
deriving DecidableEq, Repr

/-- The `File` submenu of `MENU_ITEMS`. -/
def fileMenuItems : List (String × Option String) :=
  [("Open (Ctrl+O)", some "open"), ("Save", some "save"), ("---", none),
   ("Go Up (Backspace)", some "go_up"), ("Close", some "close_menu"),
   ("Exit (Ctrl+Q)", some "exit")]

/-- The `Edit` submenu of `MENU_ITEMS`. -/
def editMenuItems : List (String × Option String) :=
  [("Copy", some "copy"), ("Paste", some "paste")]

/-- `MENU_ITEMS`. -/
def MENU_ITEMS : List (String × List (String × Option String)) :=
  [("File", fileMenuItems), ("Edit", editMenuItems)]

/-! ### Operations -/

/-- The main body widget `build_ui` constructs from the current state. -/
def bodyWidget (s : St) : Widget :=
  .bodyW s.current_dir s.item_info s.listing_error

/-- `FileLister.refresh_directory_listing`.  On success: classify children
(children that are neither directory nor regular file are skipped), sort each
group case-insensitively, set `selected_index` by the literal source
expression `1 if (self.all_items or self.current_dir != home) else 0`, and
build `item_info` as optional `..` row, then directory rows (name plus
trailing slash), then file rows.  On an `os.listdir` exception: empty
`all_items` and `item_info`, `selected_index = -1`, and a single error-text
row in `item_widgets`; `directories` and `files` are left untouched. -/
def refresh (fs : Listing) (s : St) : St :=
  match fs with
  | .ok items =>
    let ds := sortCI (dirNames items)
    let fls := sortCI (fileNames items)
    let all := ds ++ fls
    let sel : Int := if all ≠ [] ∨ s.current_dir ≠ s.home then 1 else 0
    let info :=
      (if s.current_dir ≠ s.home then [Entry.mk ".." true] else [])
      ++ (ds.map fun d => Entry.mk (d ++ "/") true)
      ++ (fls.map fun f => Entry.mk f false)
    { s with
      directories := some ds, files := some fls, all_items := all,
      item_info := info, item_widget_count := info.length,
      selected_index := sel, listing_error := none }
  | .err m =>
    { s with
      all_items := [], selected_index := -1, item_info := [],
      item_widget_count := 1, listing_error := some m }

/-- `MenuBar.close_menu`: restore the saved `bottom_w` and clear
`active_menu`; a no-op when no overlay is active. -/
def close_menu (s : St) : St :=
  match s.active_menu with
  | some (_, bottom) => { s with loop_widget := bottom, active_menu := none }
  | none => s

/-- Shared shape of `show_submenu` and `show_confirmation_dialog`: close any
existing overlay, then stack the new one over the current main widget. -/
def open_overlay (ov : OvKind) (s : St) : St :=
  let s := if s.active_menu.isSome then close_menu s else s
  { s with
    active_menu := some (ov, s.loop_widget),
    loop_widget := .overlayW ov s.loop_widget }

/-- `MenuBar.show_submenu`. -/
def show_submenu (title : String) (items : List (String × Option String)) (s : St) : St :=
  open_overlay (.submenu title items) s

/-- `MenuBar.show_confirmation_dialog`. -/
def show_confirmation_dialog (k : DlgKind) (title message : String) (s : St) : St :=
  open_overlay (.dialog k title message) s

/-- `MenuBar.show_exit_confirmation`. -/
def show_exit_confirmation (s : St) : St :=
  show_confirmation_dialog .exitConfirm "Exit Confirmation"
    "Are you sure you want to exit?" s

/-- `MenuBar.show_error_dialog`. -/
def show_error_dialog (title message : String) (s : St) : St :=
  show_confirmation_dialog .errorInfo title message s

/-- `FileLister.change_directory`: set `current_dir := abspath(new_dir)`
first, then rebuild the listing and point `main_loop.widget` at the new body.
The only statement its `try` guards that can raise is `os.path.abspath`
(listing failures are already caught inside `refresh_directory_listing`),
and `abspath` is total here, so the `except` branch is unreachable. -/
def change_directory (fs : Listing) (p : String) (s : St) : St :=
  let s1 := { s with current_dir := abspath p }
  let s2 := refresh fs s1
  { s2 with loop_widget := bodyWidget s2 }

/-- `FileLister.go_up_directory`. -/
def go_up_directory (fs : Listing) (s : St) : St :=
  let parent := dirname s.current_dir
  if parent ≠ "" ∧ s.current_dir ≠ s.home then change_directory fs parent s
  else show_error_dialog "Info" "Already at root directory" s

/-- `FileLister.open_selected_item`.  Reading `self.directories` or
`self.files` when the attribute was never assigned (first listing failed)
raises `AttributeError`. -/
def open_selected_item (fs : Listing) (s : St) : StepResult :=
  if s.selected_index < 0 ∨ s.selected_index ≥ (s.item_widget_count : Int) then .next s
  else if s.current_dir ≠ s.home ∧ s.selected_index = 0 then .next (go_up_directory fs s)
  else
    let item_index : Int := s.selected_index - (if s.current_dir ≠ s.home then 1 else 0)
    match s.directories with
    | none => .pyError "AttributeError: FileLister object has no attribute directories"
    | some ds =>
      if 0 ≤ item_index ∧ item_index < (ds.length : Int) then
        .next (change_directory fs (joinPath s.current_dir (ds.getD item_index.toNat "")) s)
      else if item_index < (s.all_items.length : Int) then
        match s.files with
        | none => .pyError "AttributeError: FileLister object has no attribute files"
        | some fls =>
          let file_index : Int := item_index - (ds.length : Int)
          if 0 ≤ file_index ∧ file_index < (fls.length : Int) then
            .next (show_error_dialog "Info"
              "Selected file (File opening not implemented)" s)
          else .next s
      else .next s

/-- `FileLister.handle_input`, the `unhandled_input` hook of the main loop.
`key.lower() == 'q'` is modelled by comparing lowered code points. -/
def handle_input (k : String) (fs : Listing) (s : St) : StepResult :=
  if lowerKey k = lowerKey "q" ∨ k = "ctrl q" then .next (show_exit_confirmation s)
  else if k = "f10" then .next (show_submenu "File" fileMenuItems s)
  else if k = "esc" then .next (if s.active_menu.isSome then close_menu s else s)
  else if k = "up" ∧ s.selected_index > 0 then
    .next { s with selected_index := s.selected_index - 1 }
  else if k = "down" ∧ s.selected_index < (s.item_widget_count : Int) - 1 then
    .next { s with selected_index := s.selected_index + 1 }
  else if k = "enter" then open_selected_item fs s
  else if k = "backspace" then .next (go_up_directory fs s)
  else .next s

/-- `MenuBar.on_submenu_click`.  The `open` branch only prints. -/
def on_submenu_click (action : Option String) (fs : Listing) (s : St) : St :=
  if action = some "exit" then show_exit_confirmation s
  else if action = some "close_menu" then close_menu s
  else if action = some "go_up" then go_up_directory fs s
  else if action = some "open" then s
  else close_menu s

/-- Keys an active overlay widget consumes itself (list focus movement and
button activation), which therefore never reach `unhandled_input`. -/
def overlayConsumed (k : String) : Bool :=
  k == "up" || k == "down" || k == "enter"

/-- One user event.  Key events carry the listing the filesystem would
report if the event triggers a refresh; clicks on overlay buttons are their
own events because urwid delivers them through widget signals. -/
inductive Event
  | key (k : String) (fs : Listing)
  | menubarClick (i : Nat)
  | submenuClick (label : String) (action : Option String) (fs : Listing)
  | dialogYes
  | dialogNo
deriving DecidableEq, Repr

/-- Route one event.  Submenu and dialog clicks only occur on buttons of the
active overlay.  Clicking Yes on an `errorInfo` dialog calls the bound method
`self.close_menu` with the button argument urwid passes, a `TypeError`;
clicking Yes on the exit dialog raises `ExitMainLoop`, a clean exit 0;
clicking No runs `on_no()` (itself `close_menu` for both dialog kinds)
followed by another `close_menu`. -/
def step : Event → St → StepResult
  | .key k fs, s =>
    match s.loop_widget with
    | .overlayW _ _ => if overlayConsumed k then .next s else handle_input k fs s
    | _ => handle_input k fs s
  | .menubarClick i, s =>
    match MENU_ITEMS.get? i with
    | some (t, items) => .next (show_submenu t items s)
    | none => .next s
  | .submenuClick label action fs, s =>
    match s.active_menu with
    | some (.submenu _ items, _) =>
      if (label, action) ∈ items ∧ label ≠ "---" then
        .next (on_submenu_click action fs s)
      else .next s
    | _ => .next s
  | .dialogYes, s =>
    match s.active_menu with
    | some (.dialog .exitConfirm _ _, _) => .exitZero
    | some (.dialog .errorInfo _ _, _) =>
      .pyError "TypeError: close_menu takes 1 positional argument but 2 were given"
    | _ => .next s
  | .dialogNo, s =>
    match s.active_menu with
    | some (.dialog _ _ _, _) => .next (close_menu (close_menu s))
    | _ => .next s

/-- The state after `FileLister().run()` reaches `loop.run()`: `current_dir`
is `os.getcwd()`, the listing was built twice (once in `__init__`, once in
`run` after the menu bar exists), and `main_loop.widget` is the body.
`directories` and `files` start unset. -/
def initState (home cwd : String) (fs1 fs2 : Listing) : St :=
  let s0 : St :=
    { home := home, current_dir := cwd, directories := none, files := none,
      all_items := [], item_info := [], item_widget_count := 0,
      listing_error := none, selected_index := 0, active_menu := none,
      loop_widget := .solid }
  let s1 := refresh fs1 s0
  let s2 := refresh fs2 s1
  { s2 with loop_widget := bodyWidget s2 }

/-- Reachability: the initial state for any starting directory and filesystem
behaviour, closed under event steps. -/
inductive Reachable : St → Prop
  | init : ∀ home cwd fs1 fs2, Reachable (initState home cwd fs1 fs2)
  | next : ∀ s e s', Reachable s → step e s = .next s' → Reachable s'

/-- The invariant the code actually maintains on the selection (the
inductive strengthening also records how `item_widget_count` relates to
`item_info`: they agree except in the degraded error state, whose single
widget is the error-text row). -/
def StrongInv (s : St) : Prop :=
  -1 ≤ s.selected_index ∧
  s.selected_index ≤ (s.item_info.length : Int) ∧
  (s.selected_index = -1 → s.item_info = []) ∧
  (s.item_widget_count = s.item_info.length ∨
    (s.item_widget_count = 1 ∧ s.item_info = []))

/-- The three fields `StrongInv` talks about agree between two states. -/
def navFieldsEq (s t : St) : Prop :=
  t.selected_index = s.selected_index ∧ t.item_info = s.item_info ∧
  t.item_widget_count = s.item_widget_count

/-- The kind of the active overlay, if any. -/
def activeOverlayKind (s : St) : Option OvKind :=
  s.active_menu.map Prod.fst

/-- The state a `StepResult` continues with, if it continues. -/
def StepResult.nextState : StepResult → Option St
  | .next s => some s
  | _ => none

/-! ### Order and sort lemmas -/

theorem natListLe_of_lt : ∀ {a b : List Nat}, natListLt a b = true → natListLe a b = true
  | [], _, _ => rfl
  | _ :: _, [], h => by simp [natListLt] at h
  | a :: as, b :: bs, h => by
    simp only [natListLt] at h
    simp only [natListLe]
    by_cases h1 : a < b
    · simp [h1]
    · by_cases h2 : b < a
      · simp [h1, h2] at h
      · simp only [h1, h2, if_false] at h ⊢
        exact natListLe_of_lt h

theorem natListLe_of_not_lt : ∀ {a b : List Nat}, natListLt b a = false → natListLe a b = true
  | [], _, _ => rfl
  | _ :: _, [], h => by simp [natListLt] at h
  | a :: as, b :: bs, h => by
    simp only [natListLt] at h
    simp only [natListLe]
    by_cases h1 : a < b
    · simp [h1]
    · by_cases h2 : b < a
      · simp [h1, h2] at h
      · simp only [h1, h2, if_false] at h ⊢
        exact natListLe_of_not_lt h

theorem natListLe_trans :
    ∀ {a b c : List Nat}, natListLe a b = true → natListLe b c = true → natListLe a c = true
  | [], _, _, _, _ => rfl
  | _ :: _, [], _, h1, _ => by simp [natListLe] at h1
  | _ :: _, _ :: _, [], _, h2 => by simp [natListLe] at h2
  | a :: as, b :: bs, c :: cs, h1, h2 => by
    simp only [natListLe] at h1 h2 ⊢
    by_cases hab : a < b
    · by_cases hbc : b < c
      · simp [show a < c by omega]
      · by_cases hcb : c < b
        · simp [hbc, hcb] at h2
        · simp [show a < c by omega]
    · by_cases hba : b < a
      · simp [hab, hba] at h1
      · by_cases hbc : b < c
        · simp [show a < c by omega]
        · by_cases hcb : c < b
          · simp [hbc, hcb] at h2
          · have h3 : ¬ a < c := by omega
            have h4 : ¬ c < a := by omega
            simp only [hab, hba, hbc, hcb, h3, h4, if_false] at h1 h2 ⊢
            exact natListLe_trans h1 h2

theorem natListLt_irrefl : ∀ a : List Nat, natListLt a a = false
  | [] => rfl
  | _ :: as => by simp [natListLt, natListLt_irrefl as]

theorem ciLe_of_lt {a b : String} (h : ciLt a b = true) : ciLe a b = true :=
  natListLe_of_lt h

theorem ciLe_of_not_lt {a b : String} (h : ciLt b a = false) : ciLe a b = true :=
  natListLe_of_not_lt h

theorem ciLe_trans {a b c : String} (h1 : ciLe a b = true) (h2 : ciLe b c = true) :
    ciLe a c = true :=
  natListLe_trans h1 h2

theorem perm_insertCI (a : String) : ∀ l : List String, (insertCI a l).Perm (a :: l)
  | [] => List.Perm.refl _
  | b :: bs => by
    simp only [insertCI]
    split
    · exact ((perm_insertCI a bs).cons b).trans (List.Perm.swap a b bs)
    · exact List.Perm.refl _

theorem perm_sortCI : ∀ l : List String, (sortCI l).Perm l
  | [] => List.Perm.refl _
  | a :: as => (perm_insertCI a (sortCI as)).trans ((perm_sortCI as).cons a)

theorem mem_insertCI {x a : String} {l : List String} (h : x ∈ insertCI a l) :
    x = a ∨ x ∈ l :=
  List.mem_cons.mp ((perm_insertCI a l).subset h)

theorem pairwise_insertCI {a : String} :
    ∀ {l : List String}, l.Pairwise (fun x y => ciLe x y = true) →
      (insertCI a l).Pairwise (fun x y => ciLe x y = true)
  | [], _ => List.pairwise_singleton _ _
  | b :: bs, h => by
    rcases List.pairwise_cons.mp h with ⟨hb, hbs⟩
    simp only [insertCI]
    split
    · refine List.pairwise_cons.mpr ⟨fun x hx => ?_, pairwise_insertCI hbs⟩
      rcases mem_insertCI hx with rfl | hx
      · exact ciLe_of_lt (by assumption)
      · exact hb x hx
    · refine List.pairwise_cons.mpr ⟨fun x hx => ?_, h⟩
      rcases List.mem_cons.mp hx with rfl | hx
      · exact ciLe_of_not_lt (by simp_all)
      · exact ciLe_trans (ciLe_of_not_lt (by simp_all)) (hb x hx)

theorem pairwise_sortCI : ∀ l : List String, (sortCI l).Pairwise fun x y => ciLe x y = true
  | [] => List.Pairwise.nil
  | _ :: as => pairwise_insertCI (pairwise_sortCI as)

theorem filter_insertCI (a : String) (k : List Nat) :
    ∀ l : List String,
      (insertCI a l).filter (fun n => decide (lowerKey n = k)) =
        if lowerKey a = k then a :: l.filter (fun n => decide (lowerKey n = k))
        else l.filter (fun n => decide (lowerKey n = k))
  | [] => by
    simp only [insertCI, List.filter]
    split <;> simp_all
  | b :: bs => by
    simp only [insertCI]
    split
    · have hrec := filter_insertCI a k bs
      by_cases hb : lowerKey b = k
      · by_cases ha : lowerKey a = k
        · exfalso
          have hlt : natListLt (lowerKey b) (lowerKey a) = true := by assumption
          rw [hb, ha] at hlt
          rw [natListLt_irrefl k] at hlt
          exact Bool.false_ne_true hlt
        · simp [List.filter_cons, hrec, hb, ha]
      · simp [List.filter_cons, hrec, hb]
    · by_cases ha : lowerKey a = k <;> simp [List.filter_cons, ha]

theorem filter_sortCI (k : List Nat) :
    ∀ l : List String,
      (sortCI l).filter (fun n => decide (lowerKey n = k)) =
        l.filter (fun n => decide (lowerKey n = k))
  | [] => rfl
  | a :: as => by
    simp only [sortCI, filter_insertCI, filter_sortCI k as, List.filter_cons]
    by_cases ha : lowerKey a = k <;> simp [ha]

/-! ### Invariant preservation -/

theorem navFieldsEq_inv {s t : St} (h : navFieldsEq s t) (hs : StrongInv s) : StrongInv t := by
  obtain ⟨h1, h2, h3⟩ := h
  unfold StrongInv at *
  rw [h1, h2, h3]
  exact hs

theorem navFieldsEq_close_menu (s : St) : navFieldsEq s (close_menu s) := by
  unfold close_menu navFieldsEq
  cases s.active_menu with
  | none => simp
  | some p => obtain ⟨ov, bg⟩ := p; simp

theorem navFieldsEq_trans {s t u : St} (h1 : navFieldsEq s t) (h2 : navFieldsEq t u) :
    navFieldsEq s u := by
  obtain ⟨a1, b1, c1⟩ := h1
  obtain ⟨a2, b2, c2⟩ := h2
  exact ⟨a2.trans a1, b2.trans b1, c2.trans c1⟩

theorem navFieldsEq_open_overlay (ov : OvKind) (s : St) : navFieldsEq s (open_overlay ov s) := by
  unfold open_overlay
  by_cases h : s.active_menu.isSome
  · simp only [h, if_true]
    exact navFieldsEq_trans (navFieldsEq_close_menu s) ⟨rfl, rfl, rfl⟩
  · simp only [h, if_false]
    exact ⟨rfl, rfl, rfl⟩

theorem navFieldsEq_show_submenu (t : String) (items : List (String × Option String))
    (s : St) : navFieldsEq s (show_submenu t items s) :=
  navFieldsEq_open_overlay _ s

theorem navFieldsEq_show_dialog (k : DlgKind) (t m : String) (s : St) :
    navFieldsEq s (show_confirmation_dialog k t m s) :=
  navFieldsEq_open_overlay _ s

theorem refresh_ok_fields (items : List Item) (s : St) :
    ∃ ds fls : List String,
      (refresh (.ok items) s).selected_index
          = (if ds ++ fls ≠ [] ∨ s.current_dir ≠ s.home then (1 : Int) else 0) ∧
      (refresh (.ok items) s).item_info
          = (if s.current_dir ≠ s.home then [Entry.mk ".." true] else [])
            ++ (ds.map fun d => Entry.mk (d ++ "/") true)
            ++ (fls.map fun f => Entry.mk f false) ∧
      (refresh (.ok items) s).item_widget_count = (refresh (.ok items) s).item_info.length :=
  ⟨_, _, rfl, rfl, rfl⟩

theorem inv_refresh (fs : Listing) (s : St) : StrongInv (refresh fs s) := by
  cases fs with
  | err m =>
    refine ⟨by simp [refresh], by simp [refresh], fun _ => by simp [refresh],
      Or.inr ⟨by simp [refresh], by simp [refresh]⟩⟩
  | ok items =>
    obtain ⟨ds, fls, h1, h2, h3⟩ := refresh_ok_fields items s
    have hlen : ((refresh (.ok items) s).item_info.length : Int)
        = (if s.current_dir ≠ s.home then 1 else 0) + ds.length + fls.length := by
      rw [h2]
      by_cases hh : s.current_dir ≠ s.home
      all_goals simp [hh]
      all_goals omega
    refine ⟨?_, ?_, ?_, Or.inl h3⟩
    · rw [h1]; split <;> omega
    · rw [h1, hlen]
      by_cases hc : ds ++ fls ≠ [] ∨ s.current_dir ≠ s.home
      · rw [if_pos hc]
        rcases hc with hc | hc
        · have hne : ds.length + fls.length ≠ 0 := by
            intro h0
            apply hc
            have hnil : ds = [] ∧ fls = [] := by
              constructor <;> (apply List.eq_nil_of_length_eq_zero; omega)
            simp [hnil.1, hnil.2]
          split <;> omega
        · rw [if_pos hc]; omega
      · rw [if_neg hc]
        push_neg at hc
        split <;> omega
    · intro hsel
      rw [h1] at hsel
      split at hsel <;> omega

theorem inv_change_directory (fs : Listing) (p : String) (s : St) :
    StrongInv (change_directory fs p s) := by
  have h := inv_refresh fs { s with current_dir := abspath p }
  exact navFieldsEq_inv ⟨rfl, rfl, rfl⟩ h

theorem inv_go_up (fs : Listing) (s : St) (h : StrongInv s) :
    StrongInv (go_up_directory fs s) := by
  simp only [go_up_directory]
  split
  · exact inv_change_directory fs _ s
  · exact navFieldsEq_inv (navFieldsEq_show_dialog _ _ _ s) h

theorem inv_show_exit (s : St) (h : StrongInv s) : StrongInv (show_exit_confirmation s) :=
  navFieldsEq_inv (navFieldsEq_show_dialog _ _ _ s) h

theorem inv_sel_up {s : St} (h : StrongInv s) (hpos : 0 < s.selected_index) :
    StrongInv { s with selected_index := s.selected_index - 1 } := by
  obtain ⟨ha, hb, hc, hw⟩ := h
  refine ⟨?_, ?_, ?_, hw⟩
  · show -1 ≤ s.selected_index - 1
    omega
  · show s.selected_index - 1 ≤ (s.item_info.length : Int)
    omega
  · intro h0
    have h1 : s.selected_index - 1 = -1 := h0
    exact absurd h1 (by omega)

theorem inv_sel_down {s : St} (h : StrongInv s)
    (hlt : s.selected_index < (s.item_widget_count : Int) - 1) :
    StrongInv { s with selected_index := s.selected_index + 1 } := by
  obtain ⟨ha, hb, hc, hw⟩ := h
  refine ⟨?_, ?_, ?_, hw⟩
  · show -1 ≤ s.selected_index + 1
    omega
  · show s.selected_index + 1 ≤ (s.item_info.length : Int)
    rcases hw with hw | ⟨hw, hi⟩
    · omega
    · rw [hw] at hlt
      rw [hi]
      simp only [List.length_nil, Nat.cast_zero]
      omega
  · intro h0
    have h1 : s.selected_index + 1 = -1 := h0
    exact absurd h1 (by omega)

theorem inv_open_selected {fs : Listing} {s s' : St}
    (h : StrongInv s) (he : open_selected_item fs s = .next s') : StrongInv s' := by
  simp only [open_selected_item] at he
  repeat' split at he
  all_goals
    first
      | exact StepResult.noConfusion he
      | (rw [StepResult.next.injEq] at he; subst he
         first
           | exact h
           | exact inv_go_up fs s h
           | exact inv_change_directory fs _ s
           | exact navFieldsEq_inv (navFieldsEq_show_dialog _ _ _ s) h)

theorem inv_handle_input {k : String} {fs : Listing} {s s' : St}
    (h : StrongInv s) (he : handle_input k fs s = .next s') : StrongInv s' := by
  simp only [handle_input] at he
  split_ifs at he with h1 h2 h3 h4 h5 h6 h7 h8
  · rw [StepResult.next.injEq] at he; subst he
    exact inv_show_exit s h
  · rw [StepResult.next.injEq] at he; subst he
    exact navFieldsEq_inv (navFieldsEq_show_submenu _ _ s) h
  · rw [StepResult.next.injEq] at he; subst he
    exact navFieldsEq_inv (navFieldsEq_close_menu s) h
  · rw [StepResult.next.injEq] at he; subst he
    exact h
  · rw [StepResult.next.injEq] at he; subst he
    exact inv_sel_up h h5.2
  · rw [StepResult.next.injEq] at he; subst he
    exact inv_sel_down h h6.2
  · exact inv_open_selected h he
  · rw [StepResult.next.injEq] at he; subst he
    exact inv_go_up fs s h
  · rw [StepResult.next.injEq] at he; subst he
    exact h

theorem inv_on_submenu_click (a : Option String) (fs : Listing) (s : St)
    (h : StrongInv s) : StrongInv (on_submenu_click a fs s) := by
  simp only [on_submenu_click]
  split_ifs
  · exact inv_show_exit s h
  · exact navFieldsEq_inv (navFieldsEq_close_menu s) h
  · exact inv_go_up fs s h
  · exact h
  · exact navFieldsEq_inv (navFieldsEq_close_menu s) h

theorem inv_step {e : Event} {s s' : St} (h : StrongInv s) (he : step e s = .next s') :
    StrongInv s' := by
  cases e with
  | key k fs =>
    simp only [step] at he
    split at he
    · split at he
      · rw [StepResult.next.injEq] at he; subst he; exact h
      · exact inv_handle_input h he
    · exact inv_handle_input h he
  | menubarClick i =>
    simp only [step] at he
    split at he
    · rw [StepResult.next.injEq] at he; subst he
      exact navFieldsEq_inv (navFieldsEq_show_submenu _ _ s) h
    · rw [StepResult.next.injEq] at he; subst he; exact h
  | submenuClick label action fs =>
    simp only [step] at he
    split at he
    · split at he
      · rw [StepResult.next.injEq] at he; subst he
        exact inv_on_submenu_click action fs s h
      · rw [StepResult.next.injEq] at he; subst he; exact h
    · rw [StepResult.next.injEq] at he; subst he; exact h
  | dialogYes =>
    simp only [step] at he
    split at he
    · simp at he
    · simp at he
    · rw [StepResult.next.injEq] at he; subst he; exact h
  | dialogNo =>
    simp only [step] at he
    split at he
    · rw [StepResult.next.injEq] at he; subst he
      exact navFieldsEq_inv
        (navFieldsEq_trans (navFieldsEq_close_menu s) (navFieldsEq_close_menu _)) h
    · rw [StepResult.next.injEq] at he; subst he; exact h

theorem inv_init (home cwd : String) (fs1 fs2 : Listing) :
    StrongInv (initState home cwd fs1 fs2) := by
  have h := inv_refresh fs2 (refresh fs1
    { home := home, current_dir := cwd, directories := none, files := none,
      all_items := [], item_info := [], item_widget_count := 0,
      listing_error := none, selected_index := 0, active_menu := none,
      loop_widget := .solid })
  exact navFieldsEq_inv ⟨rfl, rfl, rfl⟩ h

theorem reachable_inv {s : St} (h : Reachable s) : StrongInv s := by
  induction h with
  | init home cwd fs1 fs2 => exact inv_init home cwd fs1 fs2
  | next s e s' _ he ih => exact inv_step ih he

/-! ### Helper lemmas for the claims -/

theorem step_key_eq_handle {k : String} (hk : overlayConsumed k = false)
    (fs : Listing) (s : St) : step (.key k fs) s = handle_input k fs s := by
  simp only [step]
  cases hw : s.loop_widget <;> simp [hk]

theorem handle_input_quit {k : String} (hk : lowerKey k = lowerKey "q" ∨ k = "ctrl q")
    (fs : Listing) (s : St) : handle_input k fs s = .next (show_exit_confirmation s) := by
  unfold handle_input
  rw [if_pos hk]

theorem activeOverlayKind_open_overlay (ov : OvKind) (s : St) :
    activeOverlayKind (open_overlay ov s) = some ov := rfl

theorem open_overlay_current_dir (ov : OvKind) (s : St) :
    (open_overlay ov s).current_dir = s.current_dir := by
  unfold open_overlay close_menu
  cases hm : s.active_menu with
  | none => simp [hm]
  | some p => obtain ⟨o, bg⟩ := p; simp [hm]

theorem open_overlay_item_info (ov : OvKind) (s : St) :
    (open_overlay ov s).item_info = s.item_info := by
  unfold open_overlay close_menu
  cases hm : s.active_menu with
  | none => simp [hm]
  | some p => obtain ⟨o, bg⟩ := p; simp [hm]

theorem close_menu_current_dir (s : St) : (close_menu s).current_dir = s.current_dir := by
  unfold close_menu
  cases hm : s.active_menu with
  | none => rfl
  | some p => obtain ⟨o, bg⟩ := p; rfl

theorem close_menu_item_info (s : St) : (close_menu s).item_info = s.item_info := by
  unfold close_menu
  cases hm : s.active_menu with
  | none => rfl
  | some p => obtain ⟨o, bg⟩ := p; rfl

theorem step_dialogNo_dialog (k : DlgKind) (t m : String) (s : St) :
    step .dialogNo (show_confirmation_dialog k t m s)
      = .next (close_menu (close_menu (show_confirmation_dialog k t m s))) := by
  simp [step, show_confirmation_dialog, open_overlay]

theorem step_dialogYes_exitConfirm (t m : String) (s : St) :
    step .dialogYes (show_confirmation_dialog .exitConfirm t m s) = .exitZero := by
  simp [step, show_confirmation_dialog, open_overlay]

theorem close_close_active_menu (s : St) :
    (close_menu (close_menu s)).active_menu = none := by
  unfold close_menu
  cases hm : s.active_menu with
  | none =>
    simp only []
    cases s.active_menu <;> simp_all
  | some p => obtain ⟨o, bg⟩ := p; simp

theorem refresh_ok_selected_index (items : List Item) (s : St) :
    (refresh (.ok items) s).selected_index =
      if (refresh (.ok items) s).item_info = [] then 0 else 1 := by
  obtain ⟨ds, fls, h1, h2, _⟩ := refresh_ok_fields items s
  rw [h1, h2]
  by_cases hc : ds ++ fls ≠ [] ∨ s.current_dir ≠ s.home
  · have hne : ((if s.current_dir ≠ s.home then [Entry.mk ".." true] else [])
        ++ (ds.map fun d => Entry.mk (d ++ "/") true)
        ++ (fls.map fun f => Entry.mk f false)) ≠ [] := by
      rcases hc with hc | hc
      · intro h0
        rcases List.append_eq_nil.mp h0 with ⟨h01, h02⟩
        rcases List.append_eq_nil.mp h01 with ⟨h03, h04⟩
        apply hc
        rw [List.map_eq_nil_iff] at h04 h02
        simp [h04, h02]
      · intro h0
        rcases List.append_eq_nil.mp h0 with ⟨h01, h02⟩
        rcases List.append_eq_nil.mp h01 with ⟨h03, h04⟩
        rw [if_pos hc] at h03
        cases h03
    rw [if_pos hc, if_neg hne]
  · push_neg at hc
    obtain ⟨hnil, hhome⟩ := hc
    rcases List.append_eq_nil.mp hnil with ⟨hd0, hf0⟩
    subst hd0 hf0
    simp [hhome]

theorem filter_kind_not_other (k : Kind) (hk : k ≠ Kind.other) (items : List Item) :
    (items.filter fun it => decide (it.kind ≠ Kind.other)).filter
        (fun it => decide (it.kind = k))
      = items.filter fun it => decide (it.kind = k) := by
  rw [List.filter_filter]
  apply List.filter_congr
  intro it _
  by_cases h2 : it.kind = k
  · have hp : decide (it.kind ≠ Kind.other) = true := by
      rw [h2]
      exact decide_eq_true hk
    rw [hp]
    simp
  · have hq : decide (it.kind = k) = false := decide_eq_false h2
    rw [hq]
    simp

/-! ### The claims -/

/-- C1 (counterexample): the claimed invariant `-1 <= selected_index <
len(entries)` with `selected_index = -1 iff entries empty` fails on a
reachable state: starting in an empty home directory, the source expression
`1 if (self.all_items or self.current_dir != home) else 0` leaves
`selected_index = 0` while `entries` is empty. -/
theorem C1_counterexample :
    Reachable (initState "/home/u" "/home/u" (.ok []) (.ok [])) ∧
    (initState "/home/u" "/home/u" (.ok []) (.ok [])).item_info = [] ∧
    (initState "/home/u" "/home/u" (.ok []) (.ok [])).selected_index = 0 ∧
    ¬ (-1 ≤ (initState "/home/u" "/home/u" (.ok []) (.ok [])).selected_index ∧
       (initState "/home/u" "/home/u" (.ok []) (.ok [])).selected_index
         < (((initState "/home/u" "/home/u" (.ok []) (.ok [])).item_info.length : Int)) ∧
       ((initState "/home/u" "/home/u" (.ok []) (.ok [])).selected_index = -1 ↔
         (initState "/home/u" "/home/u" (.ok []) (.ok [])).item_info = [])) :=
  ⟨Reachable.init _ _ _ _, by decide, by decide, by decide⟩

/-- C1 (amended): in every reachable state `-1 <= selected_index <=
len(entries)` (the upper bound is inclusive, not strict), and
`selected_index = -1` implies `entries` is empty; the converse implication
does not hold. -/
theorem C1_amended {s : St} (h : Reachable s) :
    -1 ≤ s.selected_index ∧ s.selected_index ≤ (s.item_info.length : Int) ∧
    (s.selected_index = -1 → s.item_info = []) := by
  obtain ⟨a, b, c, _⟩ := reachable_inv h
  exact ⟨a, b, c⟩

/-- C1 witness: the amended invariant evaluated on a concrete reachable
state. -/
theorem C1_amended_witness :
    -1 ≤ (initState "/home/u" "/home/u/sub" (.ok []) (.ok [])).selected_index ∧
    (initState "/home/u" "/home/u/sub" (.ok []) (.ok [])).selected_index
      ≤ ((initState "/home/u" "/home/u/sub" (.ok []) (.ok [])).item_info.length : Int) ∧
    ((initState "/home/u" "/home/u/sub" (.ok []) (.ok [])).selected_index = -1 →
      (initState "/home/u" "/home/u/sub" (.ok []) (.ok [])).item_info = []) :=
  C1_amended (Reachable.init "/home/u" "/home/u/sub" (.ok []) (.ok []))

/-- C2 (counterexample): a successful `change_directory` into an empty home
directory rebuilds `entries = []` but resets `selected_index` to `0`, where
the claim requires `-1`. -/
theorem C2_counterexample :
    (change_directory (.ok []) "/home/u"
        (initState "/home/u" "/home/u" (.ok []) (.ok []))).item_info = [] ∧
    (change_directory (.ok []) "/home/u"
        (initState "/home/u" "/home/u" (.ok []) (.ok []))).selected_index = 0 ∧
    (change_directory (.ok []) "/home/u"
        (initState "/home/u" "/home/u" (.ok []) (.ok []))).selected_index ≠ -1 :=
  ⟨by decide, by decide, by decide⟩

/-- C2 (amended): after every `change_directory` whose listing succeeds,
`selected_index` is `0` when the rebuilt `entries` list is empty and `1`
otherwise — `1` even when no parent row exists (skipping index 0) or when
the parent row is the only entry (index 1 is then out of range); it is never
`-1` on a successful listing. -/
theorem C2_amended (items : List Item) (p : String) (s : St) :
    (change_directory (.ok items) p s).selected_index =
      if (change_directory (.ok items) p s).item_info = [] then 0 else 1 :=
  refresh_ok_selected_index items { s with current_dir := abspath p }

/-- C3 (counterexample): `change_directory` to a path whose listing fails
still replaces `current_dir`: from `/home/u`, changing to the unlistable
`/nonexistent` leaves `current_dir = /nonexistent`, not `/home/u`. -/
theorem C3_counterexample :
    (change_directory (.err "No such file or directory") "/nonexistent"
        (initState "/home/u" "/home/u" (.ok []) (.ok []))).current_dir = "/nonexistent" ∧
    (initState "/home/u" "/home/u" (.ok []) (.ok [])).current_dir = "/home/u" :=
  ⟨by decide, by decide⟩

/-- C3 (amended): `change_directory` performs no validation and is not
all-or-nothing: it always sets `current_dir := abspath(path)` first; when
the listing then fails the model degrades (`entries = []`,
`selected_index = -1`, visible error message) but `current_dir` keeps the
new, failed path. -/
theorem C3_amended (m p : String) (s : St) :
    (change_directory (.err m) p s).current_dir = abspath p ∧
    (change_directory (.err m) p s).item_info = [] ∧
    (change_directory (.err m) p s).selected_index = -1 ∧
    (change_directory (.err m) p s).listing_error = some m := by
  refine ⟨?_, ?_, ?_, ?_⟩ <;> rfl

/-- C4: neither the quit keys nor the menu `exit` action terminate directly:
both only open the exit-confirmation dialog, which leaves `current_dir` and
`entries` unchanged; answering No closes the dialog (no active overlay,
`current_dir`/`entries` still unchanged) and answering Yes exits with
code 0. -/
theorem C4_exit_confirmation (s t : St) (fs : Listing)
    (items : List (String × Option String)) (bg : Widget)
    (hmenu : t.active_menu = some (.submenu "File" items, bg))
    (hitem : ("Exit (Ctrl+Q)", some "exit") ∈ items) :
    step (.key "q" fs) s = .next (show_exit_confirmation s) ∧
    step (.key "ctrl q" fs) s = .next (show_exit_confirmation s) ∧
    step (.submenuClick "Exit (Ctrl+Q)" (some "exit") fs) t
      = .next (show_exit_confirmation t) ∧
    activeOverlayKind (show_exit_confirmation s)
      = some (.dialog .exitConfirm "Exit Confirmation" "Are you sure you want to exit?") ∧
    (show_exit_confirmation s).current_dir = s.current_dir ∧
    (show_exit_confirmation s).item_info = s.item_info ∧
    (step .dialogNo (show_exit_confirmation s)).nextState.map St.current_dir
      = some s.current_dir ∧
    (step .dialogNo (show_exit_confirmation s)).nextState.map St.item_info
      = some s.item_info ∧
    (step .dialogNo (show_exit_confirmation s)).nextState.map activeOverlayKind
      = some none ∧
    step .dialogYes (show_exit_confirmation s) = .exitZero := by
  have hno : step .dialogNo (show_exit_confirmation s)
      = .next (close_menu (close_menu (show_exit_confirmation s))) :=
    step_dialogNo_dialog .exitConfirm _ _ s
  refine ⟨?_, ?_, ?_, ?_, ?_, ?_, ?_, ?_, ?_, ?_⟩
  · exact (@step_key_eq_handle "q" (by decide) fs s).trans
      (handle_input_quit (Or.inl rfl) fs s)
  · exact (@step_key_eq_handle "ctrl q" (by decide) fs s).trans
      (handle_input_quit (Or.inr rfl) fs s)
  · simp only [step, hmenu]
    rw [if_pos ⟨hitem, by decide⟩]
    unfold on_submenu_click
    rw [if_pos rfl]
  · exact activeOverlayKind_open_overlay _ s
  · exact open_overlay_current_dir _ s
  · exact open_overlay_item_info _ s
  · rw [hno]
    show some (close_menu (close_menu (show_exit_confirmation s))).current_dir
        = some s.current_dir
    rw [close_menu_current_dir, close_menu_current_dir]
    exact congrArg some (open_overlay_current_dir _ s)
  · rw [hno]
    show some (close_menu (close_menu (show_exit_confirmation s))).item_info
        = some s.item_info
    rw [close_menu_item_info, close_menu_item_info]
    exact congrArg some (open_overlay_item_info _ s)
  · rw [hno]
    show some (activeOverlayKind (close_menu (close_menu (show_exit_confirmation s))))
        = some none
    rw [show activeOverlayKind (close_menu (close_menu (show_exit_confirmation s))) = none
      from congrArg (Option.map Prod.fst) (close_close_active_menu _)]
  · exact step_dialogYes_exitConfirm _ _ s

/-- C4 witness: the exit-confirmation round trip evaluated at a concrete
state (with the File menu open for the `exit`-action part). -/
theorem C4_exit_confirmation_witness :
    step (.key "q" (.ok [])) (initState "/home/u" "/home/u" (.ok []) (.ok []))
      = .next (show_exit_confirmation (initState "/home/u" "/home/u" (.ok []) (.ok []))) ∧
    step (.key "ctrl q" (.ok [])) (initState "/home/u" "/home/u" (.ok []) (.ok []))
      = .next (show_exit_confirmation (initState "/home/u" "/home/u" (.ok []) (.ok []))) ∧
    step (.submenuClick "Exit (Ctrl+Q)" (some "exit") (.ok []))
        (show_submenu "File" fileMenuItems (initState "/home/u" "/home/u" (.ok []) (.ok [])))
      = .next (show_exit_confirmation
          (show_submenu "File" fileMenuItems (initState "/home/u" "/home/u" (.ok []) (.ok [])))) ∧
    activeOverlayKind (show_exit_confirmation (initState "/home/u" "/home/u" (.ok []) (.ok [])))
      = some (.dialog .exitConfirm "Exit Confirmation" "Are you sure you want to exit?") ∧
    (show_exit_confirmation (initState "/home/u" "/home/u" (.ok []) (.ok []))).current_dir
      = (initState "/home/u" "/home/u" (.ok []) (.ok [])).current_dir ∧
    (show_exit_confirmation (initState "/home/u" "/home/u" (.ok []) (.ok []))).item_info
      = (initState "/home/u" "/home/u" (.ok []) (.ok [])).item_info ∧
    (step .dialogNo (show_exit_confirmation (initState "/home/u" "/home/u" (.ok []) (.ok [])))).nextState.map
        St.current_dir = some (initState "/home/u" "/home/u" (.ok []) (.ok [])).current_dir ∧
    (step .dialogNo (show_exit_confirmation (initState "/home/u" "/home/u" (.ok []) (.ok [])))).nextState.map
        St.item_info = some (initState "/home/u" "/home/u" (.ok []) (.ok [])).item_info ∧
    (step .dialogNo (show_exit_confirmation (initState "/home/u" "/home/u" (.ok []) (.ok [])))).nextState.map
        activeOverlayKind = some none ∧
    step .dialogYes (show_exit_confirmation (initState "/home/u" "/home/u" (.ok []) (.ok [])))
      = .exitZero :=
  C4_exit_confirmation (initState "/home/u" "/home/u" (.ok []) (.ok []))
    (show_submenu "File" fileMenuItems (initState "/home/u" "/home/u" (.ok []) (.ok [])))
    (.ok []) fileMenuItems (.bodyW "/home/u" [] none) (by decide) (by decide)

/-- C5 (counterexample): with the exit-confirmation dialog active, pressing
the menu key is not ignored: the dialog is replaced by the File submenu. -/
theorem C5_counterexample :
    activeOverlayKind (show_exit_confirmation (initState "/home/u" "/home/u" (.ok []) (.ok [])))
      = some (.dialog .exitConfirm "Exit Confirmation" "Are you sure you want to exit?") ∧
    (step (.key "f10" (.ok []))
        (show_exit_confirmation (initState "/home/u" "/home/u" (.ok []) (.ok [])))).nextState.map
        activeOverlayKind
      = some (some (.submenu "File" fileMenuItems)) :=
  ⟨by decide, by decide⟩

/-- C5 (amended): pressing the menu key while an overlay is active does not
leave it in place: the active overlay is closed (its saved background
restored) and the File submenu opens in its place over that same background
— so overlays are replaced, never stacked. -/
theorem C5_amended (s : St) (ov : OvKind) (bg : Widget) (fs : Listing)
    (h : s.active_menu = some (ov, bg)) :
    step (.key "f10" fs) s =
      .next { s with active_menu := some (.submenu "File" fileMenuItems, bg),
                     loop_widget := .overlayW (.submenu "File" fileMenuItems) bg } := by
  rw [@step_key_eq_handle "f10" (by decide) fs s]
  have hq : ¬ (lowerKey "f10" = lowerKey "q" ∨ "f10" = "ctrl q") := by decide
  unfold handle_input
  rw [if_neg hq, if_pos rfl]
  simp [show_submenu, open_overlay, close_menu, h]

/-- C5 witness: the menu key pressed on the concrete exit-dialog state
replaces the dialog by the File submenu over the dialog's background. -/
theorem C5_amended_witness :
    step (.key "f10" (.ok []))
        (show_exit_confirmation (initState "/home/u" "/home/u" (.ok []) (.ok [])))
      = .next { show_exit_confirmation (initState "/home/u" "/home/u" (.ok []) (.ok [])) with
                active_menu := some (.submenu "File" fileMenuItems, .bodyW "/home/u" [] none),
                loop_widget := .overlayW (.submenu "File" fileMenuItems)
                  (.bodyW "/home/u" [] none) } :=
  C5_amended (show_exit_confirmation (initState "/home/u" "/home/u" (.ok []) (.ok [])))
    (.dialog .exitConfirm "Exit Confirmation" "Are you sure you want to exit?")
    (.bodyW "/home/u" [] none) (.ok []) (by decide)

/-- C6: every successful listing yields entries ordered directories first
then files after the optional parent row; each group is a permutation of the
correspondingly classified children, sorted case-insensitively, with
key-equal names kept in original listing order (stability, stated per sort
key); and the concrete scenario: subdirs `b`, `A` and files `z.txt`, `a.txt`
yield `../, A/, b/, a.txt, z.txt`. -/
theorem C6_sort_policy (s : St) (items : List Item) :
    (∃ ds fls : List String,
      (refresh (.ok items) s).directories = some ds ∧
      (refresh (.ok items) s).files = some fls ∧
      (refresh (.ok items) s).item_info =
        (if s.current_dir ≠ s.home then [Entry.mk ".." true] else [])
          ++ (ds.map fun d => Entry.mk (d ++ "/") true)
          ++ (fls.map fun f => Entry.mk f false) ∧
      ds.Perm (dirNames items) ∧
      fls.Perm (fileNames items) ∧
      ds.Pairwise (fun a b => ciLe a b = true) ∧
      fls.Pairwise (fun a b => ciLe a b = true) ∧
      (∀ k, ds.filter (fun n => decide (lowerKey n = k))
          = (dirNames items).filter (fun n => decide (lowerKey n = k))) ∧
      (∀ k, fls.filter (fun n => decide (lowerKey n = k))
          = (fileNames items).filter (fun n => decide (lowerKey n = k)))) ∧
    (refresh (.ok [⟨"b", .dir⟩, ⟨"A", .dir⟩, ⟨"z.txt", .file⟩, ⟨"a.txt", .file⟩])
        (initState "/home/u" "/home/u/d" (.ok []) (.ok []))).item_info =
      [⟨"..", true⟩, ⟨"A/", true⟩, ⟨"b/", true⟩, ⟨"a.txt", false⟩, ⟨"z.txt", false⟩] := by
  constructor
  · refine ⟨sortCI (dirNames items), sortCI (fileNames items),
      rfl, rfl, rfl, perm_sortCI _, perm_sortCI _, pairwise_sortCI _, pairwise_sortCI _,
      fun k => filter_sortCI k _, fun k => filter_sortCI k _⟩
  · decide

/-- C7: the listing error itself degrades the model exactly as claimed
(`entries = []`, `selected_index = -1`, visible error message, no
termination), but the claim that such an error never becomes a
process-level failure is wrong: if the very first listing fails at the home
boundary, `self.directories` is never assigned, and pressing down then
enter raises an uncaught `AttributeError` that terminates the process. -/
theorem C7_listing_error_crash :
    (initState "/home/u" "/home/u" (.err "Permission denied") (.err "Permission denied")).item_info
      = [] ∧
    (initState "/home/u" "/home/u" (.err "Permission denied") (.err "Permission denied")).selected_index
      = -1 ∧
    (initState "/home/u" "/home/u" (.err "Permission denied") (.err "Permission denied")).listing_error
      = some "Permission denied" ∧
    step (.key "down" (.err "Permission denied"))
        (initState "/home/u" "/home/u" (.err "Permission denied") (.err "Permission denied"))
      = .next { initState "/home/u" "/home/u" (.err "Permission denied") (.err "Permission denied") with
                selected_index := 0 } ∧
    Reachable { initState "/home/u" "/home/u" (.err "Permission denied") (.err "Permission denied") with
                selected_index := 0 } ∧
    step (.key "enter" (.err "Permission denied"))
        { initState "/home/u" "/home/u" (.err "Permission denied") (.err "Permission denied") with
          selected_index := 0 }
      = .pyError "AttributeError: FileLister object has no attribute directories" := by
  refine ⟨?_, ?_, ?_, ?_, ?_, ?_⟩
  · decide
  · decide
  · decide
  · decide
  · exact Reachable.next _ (.key "down" (.err "Permission denied")) _
      (Reachable.init "/home/u" "/home/u" (.err "Permission denied") (.err "Permission denied"))
      (by decide)
  · decide

/-- C8: `close_menu` with no active overlay is a no-op: the entire state —
active overlay, main widget and directory model included — is returned
unchanged, and no error is raised. -/
theorem C8_close_idempotent (s : St) (h : s.active_menu = none) : close_menu s = s := by
  unfold close_menu
  rw [h]

/-- C8 witness: closing at a concrete state with no overlay. -/
theorem C8_close_idempotent_witness :
    close_menu (initState "/home/u" "/home/u" (.ok []) (.ok []))
      = initState "/home/u" "/home/u" (.ok []) (.ok []) :=
  C8_close_idempotent _ (by decide)

/-- C9: pressing the plain letter key `q` or `Q` behaves exactly like the
designated `ctrl q` chord: it opens the exit-confirmation dialog (the
handler tests `key.lower() == q`). -/
theorem C9_plain_q_key (s : St) (fs : Listing) :
    step (.key "q" fs) s = .next (show_exit_confirmation s) ∧
    step (.key "Q" fs) s = .next (show_exit_confirmation s) ∧
    step (.key "Q" fs) s = step (.key "ctrl q" fs) s ∧
    activeOverlayKind (show_exit_confirmation s)
      = some (.dialog .exitConfirm "Exit Confirmation" "Are you sure you want to exit?") := by
  have h1 := (@step_key_eq_handle "q" (by decide) fs s).trans
    (handle_input_quit (Or.inl rfl) fs s)
  have h2 := (@step_key_eq_handle "Q" (by decide) fs s).trans
    (handle_input_quit (Or.inl (by decide)) fs s)
  have h3 := (@step_key_eq_handle "ctrl q" (by decide) fs s).trans
    (handle_input_quit (Or.inr rfl) fs s)
  exact ⟨h1, h2, h2.trans h3.symm, activeOverlayKind_open_overlay _ s⟩

/-- C10: children that are neither directories nor regular files are
silently excluded: a listing behaves identically to the same listing with
those children removed; concretely, a broken symlink is absent from the
rebuilt entries. -/
theorem C10_skip_non_regular (s : St) (items : List Item) :
    refresh (.ok items) s
      = refresh (.ok (items.filter fun it => decide (it.kind ≠ Kind.other))) s ∧
    (refresh (.ok [⟨"good", .dir⟩, ⟨"broken_link", .other⟩, ⟨"notes.txt", .file⟩])
        (initState "/home/u" "/home/u/d" (.ok []) (.ok []))).item_info =
      [⟨"..", true⟩, ⟨"good/", true⟩, ⟨"notes.txt", false⟩] := by
  constructor
  · have hd : dirNames (items.filter fun it => decide (it.kind ≠ Kind.other))
        = dirNames items :=
      congrArg (List.map Item.name) (filter_kind_not_other Kind.dir (by decide) items)
    have hf : fileNames (items.filter fun it => decide (it.kind ≠ Kind.other))
        = fileNames items :=
      congrArg (List.map Item.name) (filter_kind_not_other Kind.file (by decide) items)
    simp only [refresh, hd, hf]
  · decide
